import Mathlib

/-!
Verification of the gs_usb host-side CAN adapter driver: the 24-byte frame
codec (`pack`/`unpack` with struct format "2I12BI"), the bit-timing lookup
table, the device control transfers (start / stop / device_info), the error
frame decoder `parse_err_frame`, and the `GsUsbFrame` constructor and
`can_id` bit accessors.  Machine integers are modelled as `Nat` with explicit
range conditions where the Python `struct` module enforces them.
-/

namespace GsUsb

/-- The wire-level CAN frame, mirroring the attribute set of the Python
`GsUsbFrame` class: `echo_id`/`can_id`/`timestamp_us` are u32 fields,
`can_dlc`/`channel`/`flags`/`reserved` are u8 fields, `data` is the payload
byte list (normally exactly 8 bytes). -/
structure GsUsbFrame where
  echo_id : Nat
  can_id : Nat
  can_dlc : Nat
  channel : Nat
  flags : Nat
  reserved : Nat
  data : List Nat
  timestamp_us : Nat
deriving DecidableEq, Repr

/-- Little-endian 4-byte encoding of a u32, as the struct "I" code writes it. -/
def u32le (n : Nat) : List Nat :=
  [n % 256, n / 256 % 256, n / 65536 % 256, n / 16777216 % 256]

/-- Little-endian u32 read from 4 bytes, as the struct "I" code reads it. -/
def u32of (b0 b1 b2 b3 : Nat) : Nat :=
  b0 + 256 * b1 + 65536 * b2 + 16777216 * b3

/-- Range conditions the Python `struct.pack("2I12BI", ...)` call in
`GsUsb.send` enforces: each "I" argument fits in a u32, each "B" argument
fits in a byte, and `*frame.data` supplies exactly the 8 middle "B" slots. -/
def packable (f : GsUsbFrame) : Prop :=
  f.echo_id < 4294967296 ∧ f.can_id < 4294967296 ∧ f.timestamp_us < 4294967296 ∧
  f.can_dlc < 256 ∧ f.channel < 256 ∧ f.flags < 256 ∧ f.reserved < 256 ∧
  f.data.length = 8 ∧ ∀ b ∈ f.data, b < 256

instance (f : GsUsbFrame) : Decidable (packable f) := by
  unfold packable; infer_instance

/-- Model of `struct.pack("2I12BI", echo_id, can_id, can_dlc, channel, flags,
reserved, *data, timestamp_us)` as used by `GsUsb.send`: produces the
24-byte buffer when every argument is in range, and raises (here: `none`)
otherwise. -/
def packFrame (f : GsUsbFrame) : Option (List Nat) :=
  if packable f then
    some (u32le f.echo_id ++ u32le f.can_id ++
          [f.can_dlc, f.channel, f.flags, f.reserved] ++
          f.data ++ u32le f.timestamp_us)
  else none

/-- The codec failure: `struct.unpack("2I12BI", data)` raises when the
buffer is not exactly `calcsize("2I12BI") = 24` bytes. -/
inductive CodecError where
  | BadLength
deriving DecidableEq, Repr

/-- Model of `struct.unpack("2I12BI", data)` as used by `GsUsb.read`, assembled into
a frame by the tuple assignment in `read`: fails on any buffer whose length
is not exactly 24, and performs no other validation. -/
def unpackFrame (bs : List Nat) : Except CodecError GsUsbFrame :=
  if bs.length = 24 then
    .ok { echo_id := u32of (bs.getD 0 0) (bs.getD 1 0) (bs.getD 2 0) (bs.getD 3 0)
          can_id := u32of (bs.getD 4 0) (bs.getD 5 0) (bs.getD 6 0) (bs.getD 7 0)
          can_dlc := bs.getD 8 0
          channel := bs.getD 9 0
          flags := bs.getD 10 0
          reserved := bs.getD 11 0
          data := [bs.getD 12 0, bs.getD 13 0, bs.getD 14 0, bs.getD 15 0,
                   bs.getD 16 0, bs.getD 17 0, bs.getD 18 0, bs.getD 19 0]
          timestamp_us := u32of (bs.getD 20 0) (bs.getD 21 0) (bs.getD 22 0) (bs.getD 23 0) }
  else .error .BadLength

/-! CAN bus error constants, as defined at the top of the module that
contains `parse_err_frame`. -/

def CAN_ERR_BUSOFF : Nat := 0x00000001
def CAN_ERR_RX_TX_WARNING : Nat := 0x00000002
def CAN_ERR_RX_TX_PASSIVE : Nat := 0x00000004
def CAN_ERR_OVERLOAD : Nat := 0x00000008
def CAN_ERR_STUFF : Nat := 0x00000010
def CAN_ERR_FORM : Nat := 0x00000020
def CAN_ERR_ACK : Nat := 0x00000040
def CAN_ERR_BIT_RECESSIVE : Nat := 0x00000080
def CAN_ERR_BIT_DOMINANT : Nat := 0x00000100
def CAN_ERR_CRC : Nat := 0x00000200

/-- The sequential `error_code |= FLAG` accumulation of
`GsUsb.parse_err_frame`, abstracted over its ten truthiness tests in
source order. -/
def err_code_chain (busoff warn passive overload stuff form ack bitrec bitdom crc : Bool) :
    Nat :=
  let e0 : Nat := 0
  let e1 := if busoff then e0 ||| CAN_ERR_BUSOFF else e0
  let e2 := if warn then e1 ||| CAN_ERR_RX_TX_WARNING
            else if passive then e1 ||| CAN_ERR_RX_TX_PASSIVE
            else e1
  let e3 := if overload then e2 ||| CAN_ERR_OVERLOAD else e2
  let e4 := if stuff then e3 ||| CAN_ERR_STUFF else e3
  let e5 := if form then e4 ||| CAN_ERR_FORM else e4
  let e6 := if ack then e5 ||| CAN_ERR_ACK else e5
  let e7 := if bitrec then e6 ||| CAN_ERR_BIT_RECESSIVE else e6
  let e8 := if bitdom then e7 ||| CAN_ERR_BIT_DOMINANT else e7
  let e9 := if crc then e8 ||| CAN_ERR_CRC else e8
  e9

/-- Model of `GsUsb.parse_err_frame`: sequential `error_code |= FLAG` updates guarded
by truthiness tests on `can_id`, `flags` and the data bytes, returning
`(error_code, data[6], data[7])`.  Indexing `data[1..7]` raises in Python
when the list is shorter than 8, modelled by `none`. -/
def parse_err_frame (f : GsUsbFrame) : Option (Nat × Nat × Nat) :=
  if 8 ≤ f.data.length then
    some (err_code_chain
      (f.can_id &&& 0x00000040 != 0)
      (f.data.getD 1 0 &&& 0x04 != 0)
      (f.data.getD 1 0 &&& 0x10 != 0)
      (f.flags &&& 0x00000001 != 0)
      (f.data.getD 2 0 &&& 0x04 != 0)
      (f.data.getD 2 0 &&& 0x02 != 0)
      (f.can_id &&& 0x00000020 != 0)
      (f.data.getD 2 0 &&& 0x10 != 0)
      (f.data.getD 2 0 &&& 0x08 != 0)
      (f.data.getD 3 0 &&& 0x08 != 0),
      f.data.getD 6 0, f.data.getD 7 0)
  else none

/-- The bitwise OR of exactly the error flags whose condition holds, with
the warning/passive else-if kept, abstracted over the ten Boolean
conditions.  This is the spec's wording of the error code; it is compared
with the sequential accumulation of `parse_err_frame`. -/
def err_code_of (busoff warn passive overload stuff form ack bitrec bitdom crc : Bool) : Nat :=
  (if busoff then CAN_ERR_BUSOFF else 0) |||
  (if warn then CAN_ERR_RX_TX_WARNING else if passive then CAN_ERR_RX_TX_PASSIVE else 0) |||
  (if overload then CAN_ERR_OVERLOAD else 0) |||
  (if stuff then CAN_ERR_STUFF else 0) |||
  (if form then CAN_ERR_FORM else 0) |||
  (if ack then CAN_ERR_ACK else 0) |||
  (if bitrec then CAN_ERR_BIT_RECESSIVE else 0) |||
  (if bitdom then CAN_ERR_BIT_DOMINANT else 0) |||
  (if crc then CAN_ERR_CRC else 0)

/-! gs_usb control request ids and the abstract control-transfer record. -/

def GS_USB_BREQ_HOST_FORMAT : Nat := 0
def GS_USB_BREQ_BITTIMING : Nat := 1
def GS_USB_BREQ_MODE : Nat := 2
def GS_USB_BREQ_DEVICE_CONFIG : Nat := 5

def GS_USB_MODE_NORMAL : Nat := 0

/-- A vendor control transfer with an OUT payload, as issued through
`self.gs_usb.ctrl_transfer(bmRequestType, bRequest, wValue, wIndex, data)`. -/
structure ControlTransfer where
  bmRequestType : Nat
  bRequest : Nat
  wValue : Nat
  wIndex : Nat
  payload : List Nat
deriving DecidableEq, Repr

/-- Model of `struct.pack("5I", a, b, c, d, e)`: five little-endian u32 values. -/
def pack5I (a b c d e : Nat) : List Nat :=
  u32le a ++ u32le b ++ u32le c ++ u32le d ++ u32le e

/-- Model of `GsUsb.set_timing`: the BITTIMING control transfer carrying
`pack("5I", prop_seg, phase_seg1, phase_seg2, sjw, brp)`. -/
def set_timing (prop_seg phase_seg1 phase_seg2 sjw brp : Nat) : ControlTransfer :=
  ⟨0x41, GS_USB_BREQ_BITTIMING, 0, 0, pack5I prop_seg phase_seg1 phase_seg2 sjw brp⟩

/-- Model of `GsUsb.set_bitrate`: the if/elif whitelist with `prop_seg = 1` and
`sjw = 1`; yields the timing transfer issued (`none` when no branch is
taken) and the Boolean the method returns. -/
def set_bitrate (bitrate : Nat) : Option ControlTransfer × Bool :=
  let prop_seg := 1
  let sjw := 1
  if bitrate = 10000 then (some (set_timing prop_seg 12 2 sjw 300), true)
  else if bitrate = 20000 then (some (set_timing prop_seg 12 2 sjw 150), true)
  else if bitrate = 50000 then (some (set_timing prop_seg 12 2 sjw 60), true)
  else if bitrate = 83333 then (some (set_timing prop_seg 12 2 sjw 36), true)
  else if bitrate = 100000 then (some (set_timing prop_seg 12 2 sjw 30), true)
  else if bitrate = 125000 then (some (set_timing prop_seg 12 2 sjw 24), true)
  else if bitrate = 250000 then (some (set_timing prop_seg 12 2 sjw 12), true)
  else if bitrate = 500000 then (some (set_timing prop_seg 12 2 sjw 6), true)
  else if bitrate = 800000 then (some (set_timing prop_seg 11 2 sjw 4), true)
  else if bitrate = 1000000 then (some (set_timing prop_seg 11 2 sjw 3), true)
  else (none, false)

/-- The ten bitrates of the whitelist, in source order. -/
def supported_bitrates : List Nat :=
  [10000, 20000, 50000, 83333, 100000, 125000, 250000, 500000, 800000, 1000000]

/-- The error class raised by pyusb transport operations
(`usb.core.USBError`), the only class `stop`'s `except` clause catches. -/
inductive USBError where
  | usb_error
deriving DecidableEq, Repr

/-- Abstract USB transport: the outcome of an OUT `ctrl_transfer` with the
given setup packet and payload. -/
structure Transport where
  ctrl_transfer : Nat → Nat → Nat → Nat → List Nat → Except USBError Unit

/-- Model of `GsUsb.stop`: packs `pack("II", 0, 0)`, issues the MODE control
transfer inside `try ... except usb.core.USBError: pass`, and returns
normally either way. -/
def stop (t : Transport) : Except USBError Unit :=
  let data := u32le 0 ++ u32le 0
  match t.ctrl_transfer 0x41 GS_USB_BREQ_MODE 0 0 data with
  | .ok _ => .ok ()
  | .error _ => .ok ()

/-- Model of `GsUsb.start`: after the reset and kernel-driver detach (transport
concerns), packs `pack("II", 1, mode | (1 << 4))` and issues the single
MODE control transfer; `pack` requires the ORed mode to fit a u32
(`none` models the raise). -/
def start (mode : Nat) : Option ControlTransfer :=
  let mode_ : Nat := 1
  let mode2 := mode ||| (1 <<< 4)
  if mode2 < 4294967296 then
    some ⟨0x41, GS_USB_BREQ_MODE, 0, 0, u32le mode_ ++ u32le mode2⟩
  else none

/-- Model of `struct.unpack("II", bs)`: two little-endian u32 values from an
8-byte buffer. -/
def unpack2I (bs : List Nat) : Option (Nat × Nat) :=
  if bs.length = 8 then
    some (u32of (bs.getD 0 0) (bs.getD 1 0) (bs.getD 2 0) (bs.getD 3 0),
          u32of (bs.getD 4 0) (bs.getD 5 0) (bs.getD 6 0) (bs.getD 7 0))
  else none

/-- The setup of the DEVICE_CONFIG control transfer issued by
`device_info`: an IN request (`0xC1`) for exactly 12 bytes. -/
def device_info_request : Nat × Nat × Nat × Nat × Nat :=
  (0xC1, GS_USB_BREQ_DEVICE_CONFIG, 0, 0, 12)

/-- Python `str(n / 10)` for a u32 `n`: true division produces a float
whose shortest round-trip repr is the integer part, a dot, and the last
decimal digit. -/
def str_div10 (n : Nat) : String :=
  toString (n / 10) ++ "." ++ toString (n % 10)

/-- The decoding `device_info` applies to the response:
`unpack("4B2I", data)` (raising, i.e. `none`, unless the buffer is exactly
12 bytes) followed by the formatting
`"fw: " + str(tup[4] / 10) + " hw: " + str(tup[5] / 10)`. -/
def device_info_decode (bs : List Nat) : Option String :=
  if bs.length = 12 then
    some ("fw: " ++
      str_div10 (u32of (bs.getD 4 0) (bs.getD 5 0) (bs.getD 6 0) (bs.getD 7 0)) ++
      " hw: " ++
      str_div10 (u32of (bs.getD 8 0) (bs.getD 9 0) (bs.getD 10 0) (bs.getD 11 0)))
  else none

/-! CAN ID constants from `constants.py` and the `GsUsbFrame` accessors. -/

def CAN_EFF_FLAG : Nat := 0x80000000
def CAN_RTR_FLAG : Nat := 0x40000000
def CAN_ERR_FLAG : Nat := 0x20000000
def CAN_EFF_MASK : Nat := 0x1FFFFFFF

def GS_USB_ECHO_ID : Nat := 0

/-- Model of `GsUsbFrame.arbitration_id`: `self.can_id & CAN_EFF_MASK`. -/
def GsUsbFrame.arbitration_id (f : GsUsbFrame) : Nat :=
  f.can_id &&& CAN_EFF_MASK

/-- Model of `GsUsbFrame.is_extended_id`: `bool(self.can_id & CAN_EFF_FLAG)`. -/
def GsUsbFrame.is_extended_id (f : GsUsbFrame) : Bool :=
  f.can_id &&& CAN_EFF_FLAG != 0

/-- Model of `GsUsbFrame.is_remote_frame`: `bool(self.can_id & CAN_RTR_FLAG)`. -/
def GsUsbFrame.is_remote_frame (f : GsUsbFrame) : Bool :=
  f.can_id &&& CAN_RTR_FLAG != 0

/-- Model of `GsUsbFrame.is_error_frame`: `bool(self.can_id & CAN_ERR_FLAG)`. -/
def GsUsbFrame.is_error_frame (f : GsUsbFrame) : Bool :=
  f.can_id &&& CAN_ERR_FLAG != 0

/-- Model of `GsUsbFrame.__init__(can_id=0, data=[])`: a bytes argument is first
converted to a list; the stored data is padded with `[0] * (8 - len(data))`
(the empty list when `len(data) ≥ 8`, matching Python's negative
list-repeat) and `can_dlc = len(data)`; every other field starts at 0. -/
def GsUsbFrame.init (can_id : Nat) (data : List Nat) : GsUsbFrame :=
  { echo_id := GS_USB_ECHO_ID
    can_id := can_id
    channel := 0
    flags := 0
    reserved := 0
    timestamp_us := 0
    data := data ++ List.replicate (8 - data.length) 0
    can_dlc := data.length }

lemma u32of_u32le (n : Nat) (h : n < 4294967296) :
    u32of (n % 256) (n / 256 % 256) (n / 65536 % 256) (n / 16777216 % 256) = n := by
  unfold u32of
  omega

lemma list_length_eight (l : List Nat) (h : l.length = 8) :
    ∃ d0 d1 d2 d3 d4 d5 d6 d7, l = [d0, d1, d2, d3, d4, d5, d6, d7] := by
  match l, h with
  | [d0, d1, d2, d3, d4, d5, d6, d7], _ =>
    exact ⟨d0, d1, d2, d3, d4, d5, d6, d7, rfl⟩

/-- C1: For every frame with u32 fields in [0, 2^32), byte fields in
[0, 256) and data a list of exactly 8 bytes each in [0, 256), packing the
frame with "2I12BI" succeeds and unpacking the resulting 24-byte buffer
yields a frame equal to the original in every field. -/
theorem pack_unpack_roundtrip (f : GsUsbFrame) (h : packable f) :
    ∃ bs, packFrame f = some bs ∧ bs.length = 24 ∧ unpackFrame bs = .ok f := by
  obtain ⟨he, hc, ht, hdlc, hch, hfl, hrv, hlen, hbytes⟩ := h
  obtain ⟨d0, d1, d2, d3, d4, d5, d6, d7, hdata⟩ := list_length_eight f.data hlen
  refine ⟨u32le f.echo_id ++ u32le f.can_id ++
          [f.can_dlc, f.channel, f.flags, f.reserved] ++
          f.data ++ u32le f.timestamp_us, ?_, ?_, ?_⟩
  · unfold packFrame
    rw [if_pos ⟨he, hc, ht, hdlc, hch, hfl, hrv, hlen, hbytes⟩]
  · simp [u32le, hdata]
  · unfold unpackFrame
    rw [hdata]
    simp only [u32le, List.cons_append, List.nil_append]
    rw [if_pos (by simp)]
    simp only [List.getD_cons_zero, List.getD_cons_succ]
    rw [u32of_u32le f.echo_id he, u32of_u32le f.can_id hc,
      u32of_u32le f.timestamp_us ht, ← hdata]

/-- Closed witness for C1 at a concrete valid frame. -/
theorem pack_unpack_roundtrip_witness :
    ∃ bs, packFrame ⟨0, 0x80000123, 8, 0, 0, 0, [1, 2, 3, 4, 5, 6, 7, 8], 42⟩ = some bs ∧
      bs.length = 24 ∧
      unpackFrame bs = .ok ⟨0, 0x80000123, 8, 0, 0, 0, [1, 2, 3, 4, 5, 6, 7, 8], 42⟩ :=
  pack_unpack_roundtrip ⟨0, 0x80000123, 8, 0, 0, 0, [1, 2, 3, 4, 5, 6, 7, 8], 42⟩ (by decide)

/-- C6: For every buffer whose length is not exactly 24 bytes the decoder
reports `BadLength` (a returned error value, not a crash: `unpackFrame` is a
total function), and on any 24-byte buffer it succeeds with no further
validation of dlc range or flags. -/
theorem unpack_badlength (bs : List Nat) :
    (bs.length ≠ 24 → unpackFrame bs = .error .BadLength) ∧
    (bs.length = 24 → ∃ f, unpackFrame bs = .ok f) := by
  constructor
  · intro h
    unfold unpackFrame
    rw [if_neg h]
  · intro h
    unfold unpackFrame
    rw [if_pos h]
    exact ⟨_, rfl⟩

/-- Closed witness for C6: a 23-byte buffer is rejected with `BadLength`,
and a 24-byte buffer with an out-of-range dlc (9) still decodes. -/
theorem unpack_badlength_witness :
    unpackFrame (List.replicate 23 0) = .error .BadLength ∧
    ∃ f, unpackFrame (9 :: List.replicate 23 0) = .ok f :=
  ⟨(unpack_badlength (List.replicate 23 0)).1 (by decide),
   (unpack_badlength (9 :: List.replicate 23 0)).2 (by decide)⟩

lemma err_code_chain_eq_err_code_of :
    ∀ b w p ov st fo ak br bd cr : Bool,
      err_code_chain b w p ov st fo ak br bd cr =
        err_code_of b w p ov st fo ak br bd cr := by
  decide

lemma parse_err_frame_eq (f : GsUsbFrame) (h8 : 8 ≤ f.data.length) :
    parse_err_frame f = some (err_code_of
      (f.can_id &&& 0x00000040 != 0)
      (f.data.getD 1 0 &&& 0x04 != 0)
      (f.data.getD 1 0 &&& 0x10 != 0)
      (f.flags &&& 0x00000001 != 0)
      (f.data.getD 2 0 &&& 0x04 != 0)
      (f.data.getD 2 0 &&& 0x02 != 0)
      (f.can_id &&& 0x00000020 != 0)
      (f.data.getD 2 0 &&& 0x10 != 0)
      (f.data.getD 2 0 &&& 0x08 != 0)
      (f.data.getD 3 0 &&& 0x08 != 0),
      f.data.getD 6 0, f.data.getD 7 0) := by
  unfold parse_err_frame
  rw [if_pos h8, err_code_chain_eq_err_code_of]

lemma err_code_of_warn_passive : ∀ b w p ov st fo ak br bd cr : Bool,
    (w = true →
      err_code_of b w p ov st fo ak br bd cr &&& CAN_ERR_RX_TX_WARNING =
        CAN_ERR_RX_TX_WARNING ∧
      err_code_of b w p ov st fo ak br bd cr &&& CAN_ERR_RX_TX_PASSIVE = 0) ∧
    ¬(err_code_of b w p ov st fo ak br bd cr &&& CAN_ERR_RX_TX_WARNING ≠ 0 ∧
      err_code_of b w p ov st fo ak br bd cr &&& CAN_ERR_RX_TX_PASSIVE ≠ 0) := by
  decide

/-- C2 counterexample: on the frame with `can_id = 0x40` and
`data = [0, 0, 0x04, 0x08, 0, 0, 5, 2]` the decoder yields error code
`0x211 = BUSOFF ||| STUFF ||| CRC`, which does NOT contain
`CAN_ERR_BIT_DOMINANT` (that flag needs `data[2]` bit 0x08; here
`data[2] = 0x04` and it is `data[3] = 0x08` that sets CRC). -/
theorem parse_err_frame_scenario_no_bit_dominant :
    parse_err_frame ⟨0, 0x40, 8, 0, 0, 0, [0, 0, 0x04, 0x08, 0, 0, 5, 2], 0⟩ =
      some (0x211, 5, 2) ∧
    0x211 &&& CAN_ERR_BIT_DOMINANT = 0 := by
  decide

/-- C2 (amended): for every frame with at least 8 data bytes,
`parse_err_frame` returns the bitwise OR of exactly the flags whose
condition holds (with the warning/passive else-if), `tx_error_count =
data[6]` and `rx_error_count = data[7]`; the scenario frame with `can_id`
bit 0x40 and `data = [0, 0, 0x04, 0x08, 0, 0, 5, 2]` yields BUSOFF, STUFF
and CRC with counts (5, 2). -/
theorem parse_err_frame_spec :
    (∀ f : GsUsbFrame, 8 ≤ f.data.length →
      parse_err_frame f = some (err_code_of
        (f.can_id &&& 0x00000040 != 0)
        (f.data.getD 1 0 &&& 0x04 != 0)
        (f.data.getD 1 0 &&& 0x10 != 0)
        (f.flags &&& 0x00000001 != 0)
        (f.data.getD 2 0 &&& 0x04 != 0)
        (f.data.getD 2 0 &&& 0x02 != 0)
        (f.can_id &&& 0x00000020 != 0)
        (f.data.getD 2 0 &&& 0x10 != 0)
        (f.data.getD 2 0 &&& 0x08 != 0)
        (f.data.getD 3 0 &&& 0x08 != 0),
        f.data.getD 6 0, f.data.getD 7 0)) ∧
    parse_err_frame ⟨0, 0x40, 8, 0, 0, 0, [0, 0, 0x04, 0x08, 0, 0, 5, 2], 0⟩ =
      some (CAN_ERR_BUSOFF ||| CAN_ERR_STUFF ||| CAN_ERR_CRC, 5, 2) := by
  exact ⟨parse_err_frame_eq, by decide⟩

/-- Closed witness for C2 at the scenario frame. -/
theorem parse_err_frame_spec_witness :
    parse_err_frame ⟨0, 0x40, 8, 0, 0, 0, [0, 0, 0x04, 0x08, 0, 0, 5, 2], 0⟩ =
      some (err_code_of (0x40 &&& 0x00000040 != 0) (0 &&& 0x04 != 0) (0 &&& 0x10 != 0)
        (0 &&& 0x00000001 != 0) (0x04 &&& 0x04 != 0) (0x04 &&& 0x02 != 0)
        (0x40 &&& 0x00000020 != 0) (0x04 &&& 0x10 != 0) (0x04 &&& 0x08 != 0)
        (0x08 &&& 0x08 != 0), 5, 2) :=
  parse_err_frame_spec.1 ⟨0, 0x40, 8, 0, 0, 0, [0, 0, 0x04, 0x08, 0, 0, 5, 2], 0⟩
    (by decide)

/-- C5: whenever `parse_err_frame` succeeds, if `data[1]` has both bit
0x04 and bit 0x10 set then the error code contains RX_TX_WARNING and not
RX_TX_PASSIVE (the else-if makes WARNING win), and no decoder output ever
contains both flags. -/
theorem warning_passive_exclusive (f : GsUsbFrame) (ec tx rx : Nat)
    (h : parse_err_frame f = some (ec, tx, rx)) :
    ((f.data.getD 1 0 &&& 0x04 ≠ 0 ∧ f.data.getD 1 0 &&& 0x10 ≠ 0) →
      ec &&& CAN_ERR_RX_TX_WARNING = CAN_ERR_RX_TX_WARNING ∧
      ec &&& CAN_ERR_RX_TX_PASSIVE = 0) ∧
    ¬(ec &&& CAN_ERR_RX_TX_WARNING ≠ 0 ∧ ec &&& CAN_ERR_RX_TX_PASSIVE ≠ 0) := by
  have h8 : 8 ≤ f.data.length := by
    by_contra hlt
    rw [parse_err_frame, if_neg hlt] at h
    exact Option.noConfusion h
  have h2 := parse_err_frame_eq f h8
  rw [h] at h2
  have hec : ec = err_code_of (f.can_id &&& 0x00000040 != 0)
      (f.data.getD 1 0 &&& 0x04 != 0) (f.data.getD 1 0 &&& 0x10 != 0)
      (f.flags &&& 0x00000001 != 0) (f.data.getD 2 0 &&& 0x04 != 0)
      (f.data.getD 2 0 &&& 0x02 != 0) (f.can_id &&& 0x00000020 != 0)
      (f.data.getD 2 0 &&& 0x10 != 0) (f.data.getD 2 0 &&& 0x08 != 0)
      (f.data.getD 3 0 &&& 0x08 != 0) :=
    congrArg Prod.fst (Option.some.inj h2)
  subst hec
  constructor
  · intro hw
    exact (err_code_of_warn_passive _ _ _ _ _ _ _ _ _ _).1 (by simpa using hw.1)
  · exact (err_code_of_warn_passive _ _ _ _ _ _ _ _ _ _).2

/-- Closed witness for C5: a frame with `data[1] = 0x14` (both warning and
passive bits) decodes to error code RX_TX_WARNING only. -/
theorem warning_passive_exclusive_witness :
    ((2 : Nat) &&& CAN_ERR_RX_TX_WARNING = CAN_ERR_RX_TX_WARNING ∧
     (2 : Nat) &&& CAN_ERR_RX_TX_PASSIVE = 0) ∧
    ¬((2 : Nat) &&& CAN_ERR_RX_TX_WARNING ≠ 0 ∧
      (2 : Nat) &&& CAN_ERR_RX_TX_PASSIVE ≠ 0) :=
  ⟨(warning_passive_exclusive ⟨0, 0, 8, 0, 0, 0, [0, 0x14, 0, 0, 0, 0, 0, 0], 0⟩
      2 0 0 (by decide)).1 (by decide),
   (warning_passive_exclusive ⟨0, 0, 8, 0, 0, 0, [0, 0x14, 0, 0, 0, 0, 0, 0], 0⟩
      2 0 0 (by decide)).2⟩

/-- C3: for each of the ten whitelisted bitrates, `set_bitrate` issues a
`set_timing` with `prop_seg = 1`, `sjw = 1` and exactly the table's
`(phase_seg1, phase_seg2, brp)` row, returning success; for every bitrate
outside the whitelist it issues no timing transfer and returns failure. -/
theorem set_bitrate_table :
    (set_bitrate 10000 = (some (set_timing 1 12 2 1 300), true) ∧
     set_bitrate 20000 = (some (set_timing 1 12 2 1 150), true) ∧
     set_bitrate 50000 = (some (set_timing 1 12 2 1 60), true) ∧
     set_bitrate 83333 = (some (set_timing 1 12 2 1 36), true) ∧
     set_bitrate 100000 = (some (set_timing 1 12 2 1 30), true) ∧
     set_bitrate 125000 = (some (set_timing 1 12 2 1 24), true) ∧
     set_bitrate 250000 = (some (set_timing 1 12 2 1 12), true) ∧
     set_bitrate 500000 = (some (set_timing 1 12 2 1 6), true) ∧
     set_bitrate 800000 = (some (set_timing 1 11 2 1 4), true) ∧
     set_bitrate 1000000 = (some (set_timing 1 11 2 1 3), true)) ∧
    ∀ bitrate, bitrate ∉ supported_bitrates → set_bitrate bitrate = (none, false) := by
  refine ⟨⟨rfl, rfl, rfl, rfl, rfl, rfl, rfl, rfl, rfl, rfl⟩, ?_⟩
  intro b hb
  simp only [supported_bitrates, List.mem_cons, List.not_mem_nil, or_false,
    not_or] at hb
  obtain ⟨h1, h2, h3, h4, h5, h6, h7, h8, h9, h10⟩ := hb
  unfold set_bitrate
  rw [if_neg h1, if_neg h2, if_neg h3, if_neg h4, if_neg h5, if_neg h6,
    if_neg h7, if_neg h8, if_neg h9, if_neg h10]

/-- Closed witness for C3: bitrate 999 is rejected without a transfer. -/
theorem set_bitrate_table_witness : set_bitrate 999 = (none, false) :=
  set_bitrate_table.2 999 (by decide)

/-- C4: whenever the transport's control transfer fails with a
`USBError`, `stop` swallows it and returns the normal outcome. -/
theorem stop_swallows_error (t : Transport) (e : USBError)
    (h : t.ctrl_transfer 0x41 GS_USB_BREQ_MODE 0 0 (u32le 0 ++ u32le 0) = .error e) :
    stop t = .ok () := by
  have hz : stop t =
      match t.ctrl_transfer 0x41 GS_USB_BREQ_MODE 0 0 (u32le 0 ++ u32le 0) with
      | .ok _ => Except.ok ()
      | .error _ => Except.ok () := rfl
  rw [hz, h]

/-- Closed witness for C4: a transport that always raises `USBError`
still makes `stop` return normally. -/
theorem stop_swallows_error_witness :
    stop ⟨fun _ _ _ _ _ => .error .usb_error⟩ = .ok () :=
  stop_swallows_error ⟨fun _ _ _ _ _ => .error .usb_error⟩ .usb_error rfl

/-- C7: for every mode fitting a u32, `start` issues exactly one MODE
control transfer `(0x41, MODE, 0, 0)` whose 8-byte payload is the
little-endian pair `(1, mode | (1 << 4))`, and the hardware-timestamp bit
(bit 4) is set in the transferred mode bits regardless of the caller's
mode. -/
theorem start_mode_transfer (mode : Nat) (h : mode < 4294967296) :
    start mode = some ⟨0x41, GS_USB_BREQ_MODE, 0, 0,
        u32le 1 ++ u32le (mode ||| (1 <<< 4))⟩ ∧
    unpack2I (u32le 1 ++ u32le (mode ||| (1 <<< 4))) =
      some (1, mode ||| (1 <<< 4)) ∧
    Nat.testBit (mode ||| (1 <<< 4)) 4 = true := by
  have h32 : mode < 2 ^ 32 := by omega
  have h2 : mode ||| (1 <<< 4) < 4294967296 := by
    have hor := Nat.or_lt_two_pow h32 (show (1 <<< 4 : Nat) < 2 ^ 32 by decide)
    omega
  refine ⟨?_, ?_, ?_⟩
  · unfold start
    rw [if_pos h2]
  · unfold unpack2I
    rw [if_pos (by simp [u32le])]
    simp only [u32le, List.cons_append, List.nil_append, List.getD_cons_zero,
      List.getD_cons_succ]
    rw [u32of_u32le 1 (by decide), u32of_u32le _ h2]
  · simp only [Nat.testBit_lor, Bool.or_eq_true]
    exact Or.inr (by decide)

/-- Closed witness for C7 at `mode = GS_USB_MODE_NORMAL = 0`. -/
theorem start_mode_transfer_witness :
    start 0 = some ⟨0x41, GS_USB_BREQ_MODE, 0, 0,
        u32le 1 ++ u32le (0 ||| (1 <<< 4))⟩ ∧
    unpack2I (u32le 1 ++ u32le (0 ||| (1 <<< 4))) = some (1, 0 ||| (1 <<< 4)) ∧
    Nat.testBit (0 ||| (1 <<< 4)) 4 = true :=
  start_mode_transfer 0 (by decide)

/-- C8 counterexample: `device_info` does not return a structured value;
on the concrete 12-byte response `[0,0,0,0, 18,0,0,0, 10,0,0,0]` it
returns the pre-formatted string "fw: 1.8 hw: 1.0". -/
theorem device_info_returns_formatted_string :
    device_info_decode [0, 0, 0, 0, 18, 0, 0, 0, 10, 0, 0, 0] =
      some "fw: 1.8 hw: 1.0" := by
  rfl

/-- C8 (amended): `device_info` issues a `(0xC1, DEVICE_CONFIG)` control
transfer requesting exactly 12 bytes, decodes the response as 4 reserved
bytes followed by two little-endian u32 values, divides each by 10, and
returns the pre-formatted string "fw: {fw/10} hw: {hw/10}" rather than a
structured value. -/
theorem device_info_spec :
    device_info_request = (0xC1, GS_USB_BREQ_DEVICE_CONFIG, 0, 0, 12) ∧
    (∀ r0 r1 r2 r3 a0 a1 a2 a3 b0 b1 b2 b3 : Nat,
      device_info_decode [r0, r1, r2, r3, a0, a1, a2, a3, b0, b1, b2, b3] =
        some ("fw: " ++ str_div10 (u32of a0 a1 a2 a3) ++
              " hw: " ++ str_div10 (u32of b0 b1 b2 b3))) ∧
    device_info_decode [0, 0, 0, 0, 180, 0, 0, 0, 10, 0, 0, 0] =
      some "fw: 18.0 hw: 1.0" := by
  exact ⟨rfl, fun _ _ _ _ _ _ _ _ _ _ _ _ => rfl, rfl⟩

/-- C9: the three frame-kind Booleans are the pure bit tests of `can_id`
bits 31, 30 and 29, `arbitration_id` is `can_id mod 2^29`, and on
`can_id = 0x80000123` they give (extended, not remote, not error, 0x123). -/
theorem can_id_accessors (f : GsUsbFrame) :
    f.is_extended_id = f.can_id.testBit 31 ∧
    f.is_remote_frame = f.can_id.testBit 30 ∧
    f.is_error_frame = f.can_id.testBit 29 ∧
    f.arbitration_id = f.can_id % 2 ^ 29 ∧
    (f.can_id = 0x80000123 →
      f.is_extended_id = true ∧ f.is_remote_frame = false ∧
      f.is_error_frame = false ∧ f.arbitration_id = 0x123) := by
  have hext : f.is_extended_id = f.can_id.testBit 31 := by
    rw [GsUsbFrame.is_extended_id, show CAN_EFF_FLAG = 2 ^ 31 from rfl,
      Nat.and_two_pow]
    cases hb : f.can_id.testBit 31 <;> simp [hb]
  have hrtr : f.is_remote_frame = f.can_id.testBit 30 := by
    rw [GsUsbFrame.is_remote_frame, show CAN_RTR_FLAG = 2 ^ 30 from rfl,
      Nat.and_two_pow]
    cases hb : f.can_id.testBit 30 <;> simp [hb]
  have herr : f.is_error_frame = f.can_id.testBit 29 := by
    rw [GsUsbFrame.is_error_frame, show CAN_ERR_FLAG = 2 ^ 29 from rfl,
      Nat.and_two_pow]
    cases hb : f.can_id.testBit 29 <;> simp [hb]
  have harb : f.arbitration_id = f.can_id % 2 ^ 29 := by
    rw [GsUsbFrame.arbitration_id, show CAN_EFF_MASK = 2 ^ 29 - 1 from rfl,
      Nat.and_pow_two_sub_one_eq_mod]
  refine ⟨hext, hrtr, herr, harb, fun hc => ?_⟩
  rw [hext, hrtr, herr, harb, hc]
  decide

/-- Closed witness for C9 at `can_id = 0x80000123`. -/
theorem can_id_accessors_witness :
    (⟨0, 0x80000123, 0, 0, 0, 0, [], 0⟩ : GsUsbFrame).is_extended_id = true ∧
    (⟨0, 0x80000123, 0, 0, 0, 0, [], 0⟩ : GsUsbFrame).is_remote_frame = false ∧
    (⟨0, 0x80000123, 0, 0, 0, 0, [], 0⟩ : GsUsbFrame).is_error_frame = false ∧
    (⟨0, 0x80000123, 0, 0, 0, 0, [], 0⟩ : GsUsbFrame).arbitration_id = 0x123 :=
  (can_id_accessors ⟨0, 0x80000123, 0, 0, 0, 0, [], 0⟩).2.2.2.2 rfl

/-- C10: for data of length `n ≤ 8` the constructor stores a data field of
length exactly 8 whose first `n` bytes are the input and whose remaining
`8 - n` bytes are zero, sets `can_dlc = n`, and initializes `echo_id`,
`channel`, `flags`, `reserved` and `timestamp_us` to 0; for `n > 8` the
stored data field keeps its length `n > 8`. -/
theorem frame_init_spec (can_id : Nat) (data : List Nat) :
    (data.length ≤ 8 →
      (GsUsbFrame.init can_id data).data.length = 8 ∧
      (GsUsbFrame.init can_id data).data.take data.length = data ∧
      (GsUsbFrame.init can_id data).data.drop data.length =
        List.replicate (8 - data.length) 0) ∧
    (GsUsbFrame.init can_id data).can_dlc = data.length ∧
    (GsUsbFrame.init can_id data).echo_id = 0 ∧
    (GsUsbFrame.init can_id data).channel = 0 ∧
    (GsUsbFrame.init can_id data).flags = 0 ∧
    (GsUsbFrame.init can_id data).reserved = 0 ∧
    (GsUsbFrame.init can_id data).timestamp_us = 0 ∧
    (8 < data.length → 8 < (GsUsbFrame.init can_id data).data.length) := by
  refine ⟨fun hle => ⟨?_, ?_, ?_⟩, rfl, rfl, rfl, rfl, rfl, rfl, fun hgt => ?_⟩
  · simp only [GsUsbFrame.init, List.length_append, List.length_replicate]
    omega
  · exact List.take_left data _
  · exact List.drop_left data _
  · simp only [GsUsbFrame.init, List.length_append, List.length_replicate]
    omega

/-- Closed witness for C10: 3-byte input is padded to 8 with dlc 3, and a
9-byte input keeps its overlong data field. -/
theorem frame_init_spec_witness :
    ((GsUsbFrame.init 0x123 [1, 2, 3]).data.length = 8 ∧
     (GsUsbFrame.init 0x123 [1, 2, 3]).data.take 3 = [1, 2, 3] ∧
     (GsUsbFrame.init 0x123 [1, 2, 3]).data.drop 3 = List.replicate 5 0) ∧
    8 < (GsUsbFrame.init 0 [1, 2, 3, 4, 5, 6, 7, 8, 9]).data.length :=
  ⟨(frame_init_spec 0x123 [1, 2, 3]).1 (by decide),
   (frame_init_spec 0 [1, 2, 3, 4, 5, 6, 7, 8, 9]).2.2.2.2.2.2.2 (by decide)⟩

end GsUsb
